import Mathlib

/-!
# Invoice builder (`main.go`): document description and composition pipeline

A shallow embedding of the invoice script.  The script declares rows and
columns and hands them to a document-layout library; what is embedded here
is the description the script builds (rows, columns, texts, styles) and the
order in which it talks to the library.

Conventions.

* A Go `string` is a Lean `String`; a Go `int` is an `Int` (or a `Nat` where
  the source writes a non-negative literal).
* The library fields of Go type `float64` (`Top`, `Size`, `Percent`, row
  heights, page margins) only ever receive the integer literals written in
  the source and no arithmetic is done on them; they are kept as `Nat`.
* A variadic argument `ps ...props.T` is a `List` (the slice Go builds): the
  empty list is a call without the argument.
* A field left out of a Go struct literal has Go's zero value; for the
  library's string-typed enumerations that value is the constructor `Default`.
-/

namespace Invoice

/-! ## Library constants used by the script -/

/-- Values of `fontstyle` the script uses. -/
inductive fontstyle where
  | Default
  | Bold
  deriving DecidableEq

/-- Values of `align` the script uses. -/
inductive align where
  | Default
  | Left
  | Right
  | Center
  deriving DecidableEq

/-- Values of the font family the script uses. -/
inductive fontfamily where
  | Default
  | Courier
  deriving DecidableEq

/-- Page orientations (`orientation.Type`). -/
inductive orientation where
  | Vertical
  | Horizontal
  deriving DecidableEq

/-- Page sizes (`pagesize.Type`) the script uses. -/
inductive pagesize where
  | A4
  deriving DecidableEq

/-! ## Styling records (`props`) -/

namespace props

/-- Record `props.Rect`, with the fields the script sets. -/
structure Rect where
  Center : Bool := false
  Percent : Nat := 0
  deriving DecidableEq

/-- Record `props.Text`, with the fields the script sets. -/
structure Text where
  Top : Nat := 0
  Style : fontstyle := fontstyle.Default
  Align : align := align.Default
  Size : Nat := 0
  deriving DecidableEq

/-- Record `props.Line`; the script never passes one. -/
structure Line where
  deriving DecidableEq

/-- Record `props.Signature`, with the field the script sets. -/
structure Signature where
  FontFamily : fontfamily := fontfamily.Default
  deriving DecidableEq

/-- Record `props.Color`. -/
structure Color where
  Red : Int := 0
  Green : Int := 0
  Blue : Int := 0
  deriving DecidableEq

/-- Record `props.Cell`, with the field the script sets (a nullable pointer). -/
structure Cell where
  BackgroundColor : Option Color := none
  deriving DecidableEq

end props

/-! ## Columns, rows and the document handle -/

/-- The typed content of a column, as declared by the script: which library
constructor was called and with which arguments. -/
inductive Component where
  | image (path : String) (ps : List props.Rect)
  | text (value : String) (ps : List props.Text)
  | line (ps : List props.Line)
  | signature (value : String) (ps : List props.Signature)
  | qr (code : String) (ps : List props.Rect)
  deriving DecidableEq

/-- A column (`core.Col`): a width in grid units and one component. -/
structure Col where
  size : Nat
  component : Component
  deriving DecidableEq

/-- A row (`core.Row`): height, ordered columns, optional cell style. -/
structure Row where
  height : Nat
  cols : List Col
  style : Option props.Cell
  deriving DecidableEq

/-- Page configuration built by `config.NewBuilder()...Build()`. -/
structure Config where
  Orientation : orientation
  PageSize : pagesize
  LeftMargin : Nat
  TopMargin : Nat
  RightMargin : Nat
  BottomMargin : Nat
  deriving DecidableEq

/-- The document handle (`core.Maroto`) as the script sees it: the page
configuration and the rows added so far, in order. -/
structure Maroto where
  cfg : Config
  rows : List Row
  deriving DecidableEq

/-- Modelled from the spec: `image.NewFromFileCol` of the layout library, a
column of the given width holding an image read from a file. -/
def image.NewFromFileCol (size : Nat) (path : String) (ps : List props.Rect) : Col :=
  ⟨size, Component.image path ps⟩

/-- Modelled from the spec: `text.NewCol` of the layout library, a column of
the given width holding a text. -/
def text.NewCol (size : Nat) (value : String) (ps : List props.Text) : Col :=
  ⟨size, Component.text value ps⟩

/-- Modelled from the spec: `line.NewCol` of the layout library, a column of
the given width holding a line. -/
def line.NewCol (size : Nat) (ps : List props.Line) : Col :=
  ⟨size, Component.line ps⟩

/-- Modelled from the spec: `signature.NewCol` of the layout library, a column
of the given width holding a signature placeholder. -/
def signature.NewCol (size : Nat) (value : String) (ps : List props.Signature) : Col :=
  ⟨size, Component.signature value ps⟩

/-- Modelled from the spec: `code.NewQrCol` of the layout library, a column of
the given width holding a QR code of a string. -/
def code.NewQrCol (size : Nat) (code : String) (ps : List props.Rect) : Col :=
  ⟨size, Component.qr code ps⟩

/-- Modelled from the spec: `row.New` of the layout library, an empty row of
the given height without style. -/
def row.New (height : Nat) : Row :=
  ⟨height, [], none⟩

/-- Modelled from the spec: `Row.Add` of the layout library, the row with the
given columns put after the ones it holds. -/
def Row.Add (r : Row) (cols : List Col) : Row :=
  { r with cols := r.cols ++ cols }

/-- Modelled from the spec: `Row.WithStyle` of the layout library, the row
with its cell style set. -/
def Row.WithStyle (r : Row) (style : props.Cell) : Row :=
  { r with style := some style }

/-- Modelled from the spec: `maroto.New` of the layout library, a document
with the given page configuration and no row. -/
def maroto.New (cfg : Config) : Maroto :=
  ⟨cfg, []⟩

/-- Modelled from the spec: `Maroto.AddRows` of the layout library, which puts
the given rows, in order, at the end of the row sequence. -/
def Maroto.AddRows (m : Maroto) (rows : List Row) : Maroto :=
  { m with rows := m.rows ++ rows }

/-- Modelled from the spec: `Maroto.AddRow` of the layout library, which puts
one row of the given height and columns at the end of the row sequence. -/
def Maroto.AddRow (m : Maroto) (height : Nat) (cols : List Col) : Maroto :=
  m.AddRows [(row.New height).Add cols]

/-- Modelled from the spec: the capability `list.Listable` that the library
asks of a list element, a type that can produce a header row and, given an
index, a content row. -/
class Listable (T : Type) where
  GetHeader : T → Row
  GetContent : T → Int → Row

/-- Modelled from the spec: `list.Build` of the layout library, the
list-to-rows mapping.  The header row is asked from the first element, then
the element at position `i` (counted from 0) gives the content row
`GetContent(i)`, in list order.  A list without element has nothing to ask the
header from and is the row-building error. -/
def list.Build {T : Type} [Listable T] (arr : List T) : Except String (List Row) :=
  match arr with
  | [] => Except.error "empty array"
  | first :: _ =>
    Except.ok (Listable.GetHeader first ::
      arr.mapIdx (fun i element => Listable.GetContent element (i : Int)))

/-! ## The clock (`time.Now`) and the date layout -/

/-- Months (`time.Month`). -/
inductive Month where
  | January | February | March | April | May | June
  | July | August | September | October | November | December
  deriving DecidableEq

/-- English name of a month (`Month.String`). -/
def Month.String : Month → String
  | January => "January"
  | February => "February"
  | March => "March"
  | April => "April"
  | May => "May"
  | June => "June"
  | July => "July"
  | August => "August"
  | September => "September"
  | October => "October"
  | November => "November"
  | December => "December"

/-- A reading of the wall clock (`time.Time`), by its calendar and clock
fields in the local time zone. -/
structure Time where
  year : Int
  month : Month
  day : Nat
  hour : Nat
  minute : Nat
  second : Nat
  nanosecond : Nat
  deriving DecidableEq

/-- Decimal form of `x`, padded with leading zeros when it has fewer than
`width` digits and written in full when it has more, after a minus sign when
`x` is negative: `appendInt` of Go's `time` package. -/
def appendInt (x : Int) (width : Nat) : List Char :=
  let digits := Nat.toDigits 10 x.natAbs
  (if x < 0 then ['-'] else []) ++ List.replicate (width - digits.length) '0' ++ digits

/-- Rendering of a layout, read left to right, as Go's `time` package does
it.  The layout elements interpreted are the ones the script uses: `2006`
(the year, `appendInt` with width 4), `Jan` (the first three letters of the
month name) and `02` (the day of the month, `appendInt` with width 2); any
other character of the script's layout stands for itself. -/
def Time.formatChunks (t : Time) : List Char → List Char
  | '2' :: '0' :: '0' :: '6' :: rest => appendInt t.year 4 ++ t.formatChunks rest
  | 'J' :: 'a' :: 'n' :: rest => t.month.String.data.take 3 ++ t.formatChunks rest
  | '0' :: '2' :: rest => appendInt t.day 2 ++ t.formatChunks rest
  | c :: rest => c :: t.formatChunks rest
  | [] => []

/-- Textual form of a clock reading under a layout (`Time.Format`); the
script's layout is `02 Jan 2006`. -/
def Time.Format (t : Time) (layout : String) : String :=
  String.mk (t.formatChunks layout.data)

/-! ## The script -/

/-- One line of the invoice table. -/
structure InvoiceItem where
  Item : String
  Description : String
  Quantity : String
  Price : String
  DiscountedPrice : String
  Total : String
  deriving DecidableEq

/-- Header row of the item table (`func (o InvoiceItem) GetHeader`). -/
def InvoiceItem.GetHeader (_o : InvoiceItem) : Row :=
  (row.New 10).Add [
    text.NewCol 2 "Item" [{ Style := fontstyle.Bold }],
    text.NewCol 3 "Description" [{ Style := fontstyle.Bold }],
    text.NewCol 1 "Quantity" [{ Style := fontstyle.Bold }],
    text.NewCol 2 "Price" [{ Style := fontstyle.Bold }],
    text.NewCol 2 "DiscountedPrice" [{ Style := fontstyle.Bold }],
    text.NewCol 2 "Total" [{ Style := fontstyle.Bold }]]

/-- Content row of an item at index `i` (`func (o InvoiceItem) GetContent`).
Go's `%` truncates toward zero, which is `Int.tmod`. -/
def InvoiceItem.GetContent (o : InvoiceItem) (i : Int) : Row :=
  let r := (row.New 5).Add [
    text.NewCol 2 o.Item [],
    text.NewCol 3 o.Description [],
    text.NewCol 1 o.Quantity [],
    text.NewCol 2 o.Price [],
    text.NewCol 2 o.DiscountedPrice [],
    text.NewCol 2 o.Total []]
  if Int.tmod i 2 = 0 then
    r.WithStyle { BackgroundColor := some { Red := 240, Green := 240, Blue := 240 } }
  else
    r

instance : Listable InvoiceItem where
  GetHeader := InvoiceItem.GetHeader
  GetContent := InvoiceItem.GetContent

/-- The fixed item list (`getObjects`): the loop over the rows of `contents`
appends one item per row, field by field. -/
def getObjects : List InvoiceItem :=
  let contents : List (List String) := [
    ["Laptop", "14-inch, 16GB RAM", "1", "$1200", "$1000", "$1000"],
    ["Mouse", "Wireless optical mouse", "2", "$25", "$20", "$40"],
    ["Keyboard", "Mechanical, RGB", "1", "$75", "$60", "$60"]]
  (List.range contents.length).foldl
    (fun items i =>
      let c := contents.getD i []
      items ++ [{ Item := c.getD 0 "",
                  Description := c.getD 1 "",
                  Quantity := c.getD 2 "",
                  Price := c.getD 3 "",
                  DiscountedPrice := c.getD 4 "",
                  Total := c.getD 5 "" }])
    []

/-- Adds a header to the document (`addHeader`). -/
def addHeader (m : Maroto) : Maroto :=
  let m := m.AddRow 50 [
    image.NewFromFileCol 12 "assets/logo.png" [{ Center := true, Percent := 75 }]]
  let m := m.AddRow 20 [
    text.NewCol 12 "CODEHEIM"
      [{ Top := 5, Style := fontstyle.Bold, Align := align.Center, Size := 16 }]]
  m.AddRow 20 [
    text.NewCol 12 "Invoice"
      [{ Top := 5, Style := fontstyle.Bold, Align := align.Center, Size := 12 }]]

/-- Adds the invoice details (`addInvoiceDetails`); `now` is the value
`time.Now()` returns. -/
def addInvoiceDetails (now : Time) (m : Maroto) : Maroto :=
  let m := m.AddRow 10 [
    text.NewCol 6 ("Date: " ++ now.Format "02 Jan 2006") [{ Align := align.Left, Size := 10 }],
    text.NewCol 6 "Invoice #1001" [{ Align := align.Right, Size := 10 }]]
  m.AddRow 10 [line.NewCol 12 []]

/-- Adds the list of items (`addItemList`).  `Build` is the library's
list-to-rows function; its error is the message `log.Fatal` ends the process
with, and then nothing is added. -/
def addItemList (Build : List InvoiceItem → Except String (List Row)) (m : Maroto) :
    Except String Maroto :=
  match Build getObjects with
  | Except.error err => Except.error err
  | Except.ok rows => Except.ok (m.AddRows rows)

/-- Adds a footer with total and signature (`addFooter`). -/
def addFooter (m : Maroto) : Maroto :=
  let m := m.AddRow 15 [
    text.NewCol 8 "Total Amount"
      [{ Top := 5, Style := fontstyle.Bold, Size := 10, Align := align.Right }],
    text.NewCol 4 "$1100"
      [{ Top := 5, Style := fontstyle.Bold, Size := 10, Align := align.Center }]]
  m.AddRow 40 [
    signature.NewCol 6 "Authorized Signatory" [{ FontFamily := fontfamily.Courier }],
    code.NewQrCol 6 "https://codeheim.io" [{ Percent := 75, Center := true }]]

/-- The operations of the rendering collaborator whose result the script
cannot know in advance: the list-to-rows function, the materialization of the
document and the saving of the artifact to a path. -/
structure Library (Document : Type) where
  Build : List InvoiceItem → Except String (List Row)
  Generate : Maroto → Except String Document
  Save : Document → String → Except String Unit

/-- What the process does that can be seen from outside, in order. -/
inductive Event (Document : Type) where
  | Generate (m : Maroto)
  | Save (document : Document) (path : String)
  | Println (msg : String)
  | Fatal (msg : String)

/-- A finished run: the events in order and the exit status (`log.Fatal`
logs its message and exits with status 1; returning from `main` exits with
status 0). -/
structure Outcome (Document : Type) where
  events : List (Event Document)
  status : Nat

/-- The top-level pipeline (`main`), for a library and a clock reading. -/
def main {Document : Type} (lib : Library Document) (now : Time) : Outcome Document :=
  let cfg : Config :=
    { Orientation := orientation.Vertical, PageSize := pagesize.A4,
      LeftMargin := 15, TopMargin := 15, RightMargin := 15, BottomMargin := 15 }
  let m := maroto.New cfg
  let m := addHeader m
  let m := addInvoiceDetails now m
  match addItemList lib.Build m with
  | Except.error err => ⟨[Event.Fatal err], 1⟩
  | Except.ok m =>
    let m := addFooter m
    match lib.Generate m with
    | Except.error err => ⟨[Event.Generate m, Event.Fatal err], 1⟩
    | Except.ok document =>
      match lib.Save document "output/invoice_sample.pdf" with
      | Except.error err =>
        ⟨[Event.Generate m, Event.Save document "output/invoice_sample.pdf", Event.Fatal err], 1⟩
      | Except.ok _ =>
        ⟨[Event.Generate m, Event.Save document "output/invoice_sample.pdf",
          Event.Println "PDF saved successfully."], 0⟩

/-! ## Vocabulary of the statements -/

/-- The text of a column, when the column holds a text. -/
def Col.text? (c : Col) : Option String :=
  match c.component with
  | Component.text value _ => some value
  | _ => none

/-- Sum of the column widths of a row, in grid units. -/
def Row.width (r : Row) : Nat :=
  (r.cols.map Col.size).sum

/-- The shaded background of the item table, RGB (240, 240, 240). -/
def shaded : props.Cell :=
  { BackgroundColor := some { Red := 240, Green := 240, Blue := 240 } }

/-- The empty document `main` starts from. -/
def emptyDocument : Maroto :=
  maroto.New
    { Orientation := orientation.Vertical, PageSize := pagesize.A4,
      LeftMargin := 15, TopMargin := 15, RightMargin := 15, BottomMargin := 15 }

/-- The decimal digit character of `n % 10`. -/
def digit (n : Nat) : Char :=
  Char.ofNat (48 + n % 10)

/-- Three-letter English abbreviation of a month. -/
def abbreviation (month : Month) : String :=
  match month with
  | Month.January => "Jan"
  | Month.February => "Feb"
  | Month.March => "Mar"
  | Month.April => "Apr"
  | Month.May => "May"
  | Month.June => "Jun"
  | Month.July => "Jul"
  | Month.August => "Aug"
  | Month.September => "Sep"
  | Month.October => "Oct"
  | Month.November => "Nov"
  | Month.December => "Dec"

/-- The date format `DD Mon YYYY` in the words of the specification: the day
on two digits with a leading zero, a space, the three-letter month
abbreviation, a space, the year on four digits. -/
def ddMonYYYY (day : Nat) (month : Month) (year : Nat) : String :=
  String.mk [digit (day / 10), digit day, ' '] ++ abbreviation month ++
    String.mk [' ', digit (year / 1000), digit (year / 100), digit (year / 10), digit year]

/-- The shape of a `DD Mon YYYY` text: eleven characters, two digits, a
space, a three-letter month abbreviation, a space, four digits. -/
def isDDMonYYYY (s : String) : Bool :=
  match s.data with
  | [d1, d2, s1, a, b, c, s2, y1, y2, y3, y4] =>
    d1.isDigit && d2.isDigit && s1 == ' ' &&
    ["Jan", "Feb", "Mar", "Apr", "May", "Jun", "Jul", "Aug", "Sep", "Oct", "Nov", "Dec"].contains
      (String.mk [a, b, c]) &&
    s2 == ' ' && y1.isDigit && y2.isDigit && y3.isDigit && y4.isDigit
  | _ => false

/-- A clock reading whose day of the month is one of 1 to 31. -/
def Time.dayInMonth (t : Time) : Prop :=
  1 ≤ t.day ∧ t.day ≤ 31

instance (t : Time) : Decidable t.dayInMonth :=
  inferInstanceAs (Decidable (1 ≤ t.day ∧ t.day ≤ 31))

/-- A clock reading whose year is one of 0 to 9999. -/
def Time.yearInFourDigits (t : Time) : Prop :=
  0 ≤ t.year ∧ t.year ≤ 9999

instance (t : Time) : Decidable t.yearInFourDigits :=
  inferInstanceAs (Decidable (0 ≤ t.year ∧ t.year ≤ 9999))

/-- Value of a non-empty string of decimal digits. -/
def parseDecimal (cs : List Char) : Option Nat :=
  match cs with
  | [] => none
  | _ =>
    cs.foldl
      (fun acc c => acc.bind (fun n => if c.isDigit then some (10 * n + (c.toNat - 48)) else none))
      (some 0)

/-- The integer written after the `$` of a dollar string. -/
def dollars (s : String) : Option Nat :=
  match s.data with
  | '$' :: cs => parseDecimal cs
  | _ => none

/-! ## Rows of the item type -/

theorem GetContent_cols (o : InvoiceItem) (i : Int) :
    (o.GetContent i).cols =
      [⟨2, Component.text o.Item []⟩, ⟨3, Component.text o.Description []⟩,
       ⟨1, Component.text o.Quantity []⟩, ⟨2, Component.text o.Price []⟩,
       ⟨2, Component.text o.DiscountedPrice []⟩, ⟨2, Component.text o.Total []⟩] := by
  unfold InvoiceItem.GetContent
  split <;> rfl

theorem GetContent_height (o : InvoiceItem) (i : Int) : (o.GetContent i).height = 5 := by
  unfold InvoiceItem.GetContent
  split <;> rfl

theorem GetContent_style (o : InvoiceItem) (i : Int) :
    (o.GetContent i).style = if Int.tmod i 2 = 0 then some shaded else none := by
  unfold InvoiceItem.GetContent
  split <;> rfl

theorem getObjects_eq :
    getObjects =
      [⟨"Laptop", "14-inch, 16GB RAM", "1", "$1200", "$1000", "$1000"⟩,
       ⟨"Mouse", "Wireless optical mouse", "2", "$25", "$20", "$40"⟩,
       ⟨"Keyboard", "Mechanical, RGB", "1", "$75", "$60", "$60"⟩] := by
  rfl

/-! ## Rows added by each composition step -/

theorem addHeader_rows (m : Maroto) :
    (addHeader m).rows = m.rows ++
      [⟨50, [⟨12, Component.image "assets/logo.png" [⟨true, 75⟩]⟩], none⟩,
       ⟨20, [⟨12, Component.text "CODEHEIM" [⟨5, fontstyle.Bold, align.Center, 16⟩]⟩], none⟩,
       ⟨20, [⟨12, Component.text "Invoice" [⟨5, fontstyle.Bold, align.Center, 12⟩]⟩], none⟩] := by
  simp [addHeader, Maroto.AddRow, Maroto.AddRows, row.New, Row.Add, image.NewFromFileCol,
    text.NewCol]

theorem addInvoiceDetails_rows (now : Time) (m : Maroto) :
    (addInvoiceDetails now m).rows = m.rows ++
      [⟨10, [⟨6, Component.text ("Date: " ++ now.Format "02 Jan 2006")
                [⟨0, fontstyle.Default, align.Left, 10⟩]⟩,
             ⟨6, Component.text "Invoice #1001" [⟨0, fontstyle.Default, align.Right, 10⟩]⟩],
         none⟩,
       ⟨10, [⟨12, Component.line []⟩], none⟩] := by
  simp [addInvoiceDetails, Maroto.AddRow, Maroto.AddRows, row.New, Row.Add, line.NewCol,
    text.NewCol]

theorem addFooter_rows (m : Maroto) :
    (addFooter m).rows = m.rows ++
      [⟨15, [⟨8, Component.text "Total Amount" [⟨5, fontstyle.Bold, align.Right, 10⟩]⟩,
             ⟨4, Component.text "$1100" [⟨5, fontstyle.Bold, align.Center, 10⟩]⟩], none⟩,
       ⟨40, [⟨6, Component.signature "Authorized Signatory" [⟨fontfamily.Courier⟩]⟩,
             ⟨6, Component.qr "https://codeheim.io" [⟨true, 75⟩]⟩], none⟩] := by
  simp [addFooter, Maroto.AddRow, Maroto.AddRows, row.New, Row.Add, signature.NewCol,
    code.NewQrCol, text.NewCol]

theorem Build_getObjects :
    list.Build getObjects = Except.ok
      [InvoiceItem.GetHeader ⟨"Laptop", "14-inch, 16GB RAM", "1", "$1200", "$1000", "$1000"⟩,
       InvoiceItem.GetContent ⟨"Laptop", "14-inch, 16GB RAM", "1", "$1200", "$1000", "$1000"⟩ 0,
       InvoiceItem.GetContent ⟨"Mouse", "Wireless optical mouse", "2", "$25", "$20", "$40"⟩ 1,
       InvoiceItem.GetContent ⟨"Keyboard", "Mechanical, RGB", "1", "$75", "$60", "$60"⟩ 2] := by
  rfl

theorem addItemList_rows (m : Maroto) :
    addItemList list.Build m = Except.ok
      { m with rows := m.rows ++
        [InvoiceItem.GetHeader ⟨"Laptop", "14-inch, 16GB RAM", "1", "$1200", "$1000", "$1000"⟩,
         InvoiceItem.GetContent ⟨"Laptop", "14-inch, 16GB RAM", "1", "$1200", "$1000", "$1000"⟩ 0,
         InvoiceItem.GetContent ⟨"Mouse", "Wireless optical mouse", "2", "$25", "$20", "$40"⟩ 1,
         InvoiceItem.GetContent ⟨"Keyboard", "Mechanical, RGB", "1", "$75", "$60", "$60"⟩ 2] } := by
  unfold addItemList
  rw [Build_getObjects]
  rfl

/-! ## Parity of the index -/

theorem tmod_two_natCast (k : Nat) : Int.tmod (k : Int) 2 = 0 ↔ k % 2 = 0 := by
  rw [Int.tmod_eq_emod (Int.ofNat_nonneg k) (by decide)]
  omega

theorem Build_cons (first : InvoiceItem) (rest : List InvoiceItem) :
    list.Build (first :: rest) = Except.ok (first.GetHeader ::
      (first :: rest).mapIdx (fun i element => element.GetContent (i : Int))) := rfl

/-! ## Decimal digits of the date -/

theorem digitChar_eq_digit (n : Nat) (h : n < 10) : Nat.digitChar n = digit n := by
  revert n
  decide

theorem digit_isDigit (n : Nat) : (digit n).isDigit = true := by
  have h : ∀ k, k < 10 → (digit k).isDigit = true := by decide
  have hn : digit n = digit (n % 10) := by simp [digit]
  rw [hn]
  exact h _ (Nat.mod_lt _ (by decide))

theorem toDigitsCore_succ (fuel n : Nat) (ds : List Char) :
    Nat.toDigitsCore 10 (fuel + 1) n ds =
      if n / 10 = 0 then digit n :: ds else Nat.toDigitsCore 10 fuel (n / 10) (digit n :: ds) := by
  have hd : Nat.digitChar (n % 10) = digit n := by
    rw [digitChar_eq_digit _ (Nat.mod_lt _ (by decide))]
    simp [digit]
  simp only [Nat.toDigitsCore, hd]

theorem toDigits_lt_10 (n : Nat) (h : n < 10) : Nat.toDigits 10 n = [digit n] := by
  have h0 : n / 10 = 0 := by omega
  rw [Nat.toDigits, toDigitsCore_succ, if_pos h0]

theorem toDigits_lt_100 (n : Nat) (h1 : 10 ≤ n) (h2 : n < 100) :
    Nat.toDigits 10 n = [digit (n / 10), digit n] := by
  obtain ⟨k, rfl⟩ : ∃ k, n = k + 1 := ⟨n - 1, by omega⟩
  have h0 : ¬ (k + 1) / 10 = 0 := by omega
  have h3 : (k + 1) / 10 / 10 = 0 := by omega
  rw [Nat.toDigits, toDigitsCore_succ, if_neg h0, toDigitsCore_succ, if_pos h3]

theorem toDigits_lt_1000 (n : Nat) (h1 : 100 ≤ n) (h2 : n < 1000) :
    Nat.toDigits 10 n = [digit (n / 100), digit (n / 10), digit n] := by
  obtain ⟨k, rfl⟩ : ∃ k, n = k + 2 := ⟨n - 2, by omega⟩
  have h0 : ¬ (k + 2) / 10 = 0 := by omega
  have h3 : ¬ (k + 2) / 10 / 10 = 0 := by omega
  have h4 : (k + 2) / 10 / 10 / 10 = 0 := by omega
  have h5 : (k + 2) / 10 / 10 = (k + 2) / 100 := by omega
  rw [Nat.toDigits, toDigitsCore_succ, if_neg h0, toDigitsCore_succ, if_neg h3,
    toDigitsCore_succ, if_pos h4, h5]

theorem toDigits_lt_10000 (n : Nat) (h1 : 1000 ≤ n) (h2 : n < 10000) :
    Nat.toDigits 10 n = [digit (n / 1000), digit (n / 100), digit (n / 10), digit n] := by
  obtain ⟨k, rfl⟩ : ∃ k, n = k + 3 := ⟨n - 3, by omega⟩
  have h0 : ¬ (k + 3) / 10 = 0 := by omega
  have h3 : ¬ (k + 3) / 10 / 10 = 0 := by omega
  have h4 : ¬ (k + 3) / 10 / 10 / 10 = 0 := by omega
  have h6 : (k + 3) / 10 / 10 / 10 / 10 = 0 := by omega
  have h5 : (k + 3) / 10 / 10 = (k + 3) / 100 := by omega
  have h7 : (k + 3) / 100 / 10 = (k + 3) / 1000 := by omega
  rw [Nat.toDigits, toDigitsCore_succ, if_neg h0, toDigitsCore_succ, if_neg h3,
    toDigitsCore_succ, if_neg h4, toDigitsCore_succ, if_pos h6, h5, h7]

theorem digit_of_div_eq_zero (n : Nat) (h : n = 0) : digit n = '0' := by
  subst h
  rfl

theorem appendInt_two (d : Nat) (h : d < 100) :
    appendInt (d : Int) 2 = [digit (d / 10), digit d] := by
  have hneg : ¬ ((d : Int) < 0) := by omega
  simp only [appendInt, Int.natAbs_ofNat, if_neg hneg, List.nil_append]
  by_cases h10 : d < 10
  · rw [toDigits_lt_10 d h10, digit_of_div_eq_zero (d / 10) (by omega)]
    rfl
  · rw [toDigits_lt_100 d (by omega) h]
    rfl

theorem appendInt_four (y : Nat) (h : y < 10000) :
    appendInt (y : Int) 4 = [digit (y / 1000), digit (y / 100), digit (y / 10), digit y] := by
  have hneg : ¬ ((y : Int) < 0) := by omega
  simp only [appendInt, Int.natAbs_ofNat, if_neg hneg, List.nil_append]
  by_cases h10 : y < 10
  · rw [toDigits_lt_10 y h10, digit_of_div_eq_zero (y / 10) (by omega),
      digit_of_div_eq_zero (y / 100) (by omega), digit_of_div_eq_zero (y / 1000) (by omega)]
    rfl
  · by_cases h100 : y < 100
    · rw [toDigits_lt_100 y (by omega) h100, digit_of_div_eq_zero (y / 100) (by omega),
        digit_of_div_eq_zero (y / 1000) (by omega)]
      rfl
    · by_cases h1000 : y < 1000
      · rw [toDigits_lt_1000 y (by omega) h1000, digit_of_div_eq_zero (y / 1000) (by omega)]
        rfl
      · rw [toDigits_lt_10000 y (by omega) h]
        rfl

theorem Format_layout (t : Time) :
    t.Format "02 Jan 2006" =
      String.mk (appendInt t.day 2 ++ ' ' :: (t.month.String.data.take 3 ++
        ' ' :: (appendInt t.year 4 ++ []))) := rfl

theorem Month_take_three (month : Month) :
    month.String.data.take 3 = (abbreviation month).data := by
  cases month <;> rfl

theorem Format_eq_ddMonYYYY (t : Time) (hd : t.dayInMonth) (hy : t.yearInFourDigits) :
    t.Format "02 Jan 2006" = ddMonYYYY t.day t.month t.year.toNat := by
  obtain ⟨y, hyy⟩ : ∃ y : Nat, t.year = (y : Int) := ⟨t.year.toNat, (Int.toNat_of_nonneg hy.1).symm⟩
  have hy4 : y < 10000 := by
    have := hy.2
    omega
  rw [Format_layout, hyy, appendInt_two t.day (by have := hd.2; omega), appendInt_four y hy4,
    Month_take_three]
  simp [ddMonYYYY, String.ext_iff]

theorem ddMonYYYY_shape (day : Nat) (month : Month) (year : Nat) :
    isDDMonYYYY (ddMonYYYY day month year) = true := by
  cases month <;>
    simp [isDDMonYYYY, ddMonYYYY, abbreviation, digit_isDigit]

/-! ## The pipeline -/

theorem emptyDocument_rows : emptyDocument.rows = [] := rfl

theorem main_eq {Document : Type} (lib : Library Document) (now : Time) :
    main lib now =
      match lib.Build getObjects with
      | Except.error err => ⟨[Event.Fatal err], 1⟩
      | Except.ok rows =>
        match lib.Generate
            (addFooter ((addInvoiceDetails now (addHeader emptyDocument)).AddRows rows)) with
        | Except.error err =>
          ⟨[Event.Generate
              (addFooter ((addInvoiceDetails now (addHeader emptyDocument)).AddRows rows)),
            Event.Fatal err], 1⟩
        | Except.ok document =>
          match lib.Save document "output/invoice_sample.pdf" with
          | Except.error err =>
            ⟨[Event.Generate
                (addFooter ((addInvoiceDetails now (addHeader emptyDocument)).AddRows rows)),
              Event.Save document "output/invoice_sample.pdf", Event.Fatal err], 1⟩
          | Except.ok _ =>
            ⟨[Event.Generate
                (addFooter ((addInvoiceDetails now (addHeader emptyDocument)).AddRows rows)),
              Event.Save document "output/invoice_sample.pdf",
              Event.Println "PDF saved successfully."], 0⟩ := by
  unfold main addItemList
  cases lib.Build getObjects <;> rfl

/-! ## The claims -/

/-- C1: for every non-empty list of items the list-to-rows mapping succeeds
with one header row followed by one content row per item in list order (the
row at position `k + 1` is `GetContent(k)` of the item at position `k`), and
that content row carries the shaded background (240, 240, 240) exactly when
`k` is even, no style otherwise.  For the list of `getObjects`,
`addItemList` appends exactly the header row and the content rows of Laptop,
Mouse and Keyboard, rows 0 and 2 shaded and row 1 not. -/
theorem addItemList_header_and_content_rows (items : List InvoiceItem) (h : items ≠ []) :
    (∃ rows, list.Build items = Except.ok rows ∧
      rows.length = 1 + items.length ∧
      (∀ o : InvoiceItem, rows[0]? = some o.GetHeader) ∧
      (∀ (k : Nat) (o : InvoiceItem), items[k]? = some o →
        ∃ r, rows[k + 1]? = some r ∧ r = o.GetContent k ∧
          (r.style = some shaded ↔ k % 2 = 0) ∧ (k % 2 ≠ 0 → r.style = none))) ∧
    (∀ m : Maroto, ∃ m1 hdr c0 c1 c2,
      addItemList list.Build m = Except.ok m1 ∧
      m1.rows = m.rows ++ [hdr, c0, c1, c2] ∧
      (∀ o : InvoiceItem, hdr = o.GetHeader) ∧
      c0.cols.map Col.text? =
        [some "Laptop", some "14-inch, 16GB RAM", some "1", some "$1200", some "$1000",
         some "$1000"] ∧
      c1.cols.map Col.text? =
        [some "Mouse", some "Wireless optical mouse", some "2", some "$25", some "$20",
         some "$40"] ∧
      c2.cols.map Col.text? =
        [some "Keyboard", some "Mechanical, RGB", some "1", some "$75", some "$60",
         some "$60"] ∧
      c0.style = some shaded ∧ c1.style = none ∧ c2.style = some shaded) := by
  constructor
  · cases items with
    | nil => exact absurd rfl h
    | cons first rest =>
      refine ⟨_, Build_cons first rest, ?_, ?_, ?_⟩
      · simp [Nat.add_comm]
      · intro o
        rw [List.getElem?_cons_zero]
        rfl
      · intro k o hk
        have hodd : k % 2 ≠ 0 → ¬ Int.tmod (k : Int) 2 = 0 :=
          fun hp hc => hp ((tmod_two_natCast k).1 hc)
        refine ⟨o.GetContent k, ?_, rfl, ?_, ?_⟩
        · rw [List.getElem?_cons_succ, List.getElem?_mapIdx, hk]
          rfl
        · rw [GetContent_style]
          by_cases hp : k % 2 = 0
          · simp [(tmod_two_natCast k).2 hp, hp]
          · simp [hodd hp, hp]
        · intro hp
          rw [GetContent_style]
          simp [hodd hp]
  · intro m
    exact ⟨_, _, _, _, _, addItemList_rows m, rfl, fun _ => rfl, rfl, rfl, rfl, rfl, rfl, rfl⟩

/-- Witness of C1 at the one-item list holding a pen. -/
theorem addItemList_header_and_content_rows_witness :
    (∃ rows, list.Build [(⟨"Pen", "Blue", "3", "$2", "$1", "$3"⟩ : InvoiceItem)] = Except.ok rows ∧
      rows.length = 1 + 1) := by
  obtain ⟨⟨rows, hb, hl, _⟩, _⟩ :=
    addItemList_header_and_content_rows [(⟨"Pen", "Blue", "3", "$2", "$1", "$3"⟩ : InvoiceItem)]
      (by simp)
  exact ⟨rows, hb, hl⟩

/-- C8: every composition step leaves the rows already in the document as
they are and in place, and only puts rows after them: the three fixed rows of
`addHeader` (logo image `assets/logo.png`, text `CODEHEIM`, text `Invoice`),
two rows for `addInvoiceDetails`, four for `addItemList`, two for
`addFooter`.  The page configuration is left as it is. -/
theorem steps_only_append (d : Maroto) (now : Time) :
    ((addHeader d).rows = d.rows ++
        [⟨50, [⟨12, Component.image "assets/logo.png" [⟨true, 75⟩]⟩], none⟩,
         ⟨20, [⟨12, Component.text "CODEHEIM" [⟨5, fontstyle.Bold, align.Center, 16⟩]⟩], none⟩,
         ⟨20, [⟨12, Component.text "Invoice" [⟨5, fontstyle.Bold, align.Center, 12⟩]⟩], none⟩] ∧
      (addHeader d).cfg = d.cfg) ∧
    (∃ r1 r2, (addInvoiceDetails now d).rows = d.rows ++ [r1, r2] ∧
      (addInvoiceDetails now d).cfg = d.cfg) ∧
    (∃ d1 r1 r2 r3 r4, addItemList list.Build d = Except.ok d1 ∧
      d1.rows = d.rows ++ [r1, r2, r3, r4] ∧ d1.cfg = d.cfg) ∧
    (∃ r1 r2, (addFooter d).rows = d.rows ++ [r1, r2] ∧ (addFooter d).cfg = d.cfg) :=
  ⟨⟨addHeader_rows d, rfl⟩,
   ⟨_, _, addInvoiceDetails_rows now d, rfl⟩,
   ⟨_, _, _, _, _, addItemList_rows d, rfl, rfl⟩,
   ⟨_, _, addFooter_rows d, rfl⟩⟩

/-- C4: whatever the document holds, and so whatever item list the item rows
in it were built from, `addFooter` appends the same two rows: the totals row
with the label `Total Amount` and the literal amount `$1100`, and the row with
the signature column `Authorized Signatory` and the QR code of
`https://codeheim.io`. -/
theorem addFooter_literal_total (m : Maroto) (items : List InvoiceItem) (rows : List Row) :
    (addFooter m).rows = m.rows ++
      [⟨15, [⟨8, Component.text "Total Amount" [⟨5, fontstyle.Bold, align.Right, 10⟩]⟩,
             ⟨4, Component.text "$1100" [⟨5, fontstyle.Bold, align.Center, 10⟩]⟩], none⟩,
       ⟨40, [⟨6, Component.signature "Authorized Signatory" [⟨fontfamily.Courier⟩]⟩,
             ⟨6, Component.qr "https://codeheim.io" [⟨true, 75⟩]⟩], none⟩] ∧
    (list.Build items = Except.ok rows →
      (addFooter (m.AddRows rows)).rows = (m.rows ++ rows) ++
        [⟨15, [⟨8, Component.text "Total Amount" [⟨5, fontstyle.Bold, align.Right, 10⟩]⟩,
               ⟨4, Component.text "$1100" [⟨5, fontstyle.Bold, align.Center, 10⟩]⟩], none⟩,
         ⟨40, [⟨6, Component.signature "Authorized Signatory" [⟨fontfamily.Courier⟩]⟩,
               ⟨6, Component.qr "https://codeheim.io" [⟨true, 75⟩]⟩], none⟩]) :=
  ⟨addFooter_rows m, fun _ => addFooter_rows (m.AddRows rows)⟩

/-- Witness of C4 at the empty document and a one-item list: the amount
stays `$1100` although the only total is `$3`. -/
theorem addFooter_literal_total_witness :
    (addFooter (emptyDocument.AddRows
      [InvoiceItem.GetHeader ⟨"Pen", "Blue", "3", "$2", "$1", "$3"⟩,
       InvoiceItem.GetContent ⟨"Pen", "Blue", "3", "$2", "$1", "$3"⟩ 0])).rows =
      (emptyDocument.rows ++
        [InvoiceItem.GetHeader ⟨"Pen", "Blue", "3", "$2", "$1", "$3"⟩,
         InvoiceItem.GetContent ⟨"Pen", "Blue", "3", "$2", "$1", "$3"⟩ 0]) ++
        [⟨15, [⟨8, Component.text "Total Amount" [⟨5, fontstyle.Bold, align.Right, 10⟩]⟩,
               ⟨4, Component.text "$1100" [⟨5, fontstyle.Bold, align.Center, 10⟩]⟩], none⟩,
         ⟨40, [⟨6, Component.signature "Authorized Signatory" [⟨fontfamily.Courier⟩]⟩,
               ⟨6, Component.qr "https://codeheim.io" [⟨true, 75⟩]⟩], none⟩] :=
  (addFooter_literal_total emptyDocument [⟨"Pen", "Blue", "3", "$2", "$1", "$3"⟩] _).2 rfl

/-- C6: the content row of an item, at any index, is one row of height 5
with exactly six text columns holding, in order, the six fields of the item,
with widths 2, 3, 1, 2, 2, 2; the header row has the labels `Item`,
`Description`, `Quantity`, `Price`, `DiscountedPrice`, `Total` in the same
order and with the same widths. -/
theorem GetContent_is_fields_in_order (o : InvoiceItem) (i : Int) :
    (o.GetContent i).height = 5 ∧
    (o.GetContent i).cols.length = 6 ∧
    (o.GetContent i).cols.map Col.text? =
      [some o.Item, some o.Description, some o.Quantity, some o.Price,
       some o.DiscountedPrice, some o.Total] ∧
    (o.GetContent i).cols.map Col.size = [2, 3, 1, 2, 2, 2] ∧
    o.GetHeader.cols.map Col.text? =
      [some "Item", some "Description", some "Quantity", some "Price",
       some "DiscountedPrice", some "Total"] ∧
    o.GetHeader.cols.map Col.size = (o.GetContent i).cols.map Col.size := by
  rw [GetContent_cols, GetContent_height]
  exact ⟨rfl, rfl, rfl, rfl, rfl, rfl⟩

/-- C7: the column widths of every row the script builds sum to 12: the
three rows appended by `addHeader`, the two appended by `addInvoiceDetails`,
the two appended by `addFooter`, the row of `GetHeader` and the row of
`GetContent` for every item and index. -/
theorem row_widths_sum_to_twelve (m : Maroto) (now : Time) (o : InvoiceItem) (i : Int) :
    ((addHeader m).rows.drop m.rows.length).map Row.width = [12, 12, 12] ∧
    ((addInvoiceDetails now m).rows.drop m.rows.length).map Row.width = [12, 12] ∧
    ((addFooter m).rows.drop m.rows.length).map Row.width = [12, 12] ∧
    o.GetHeader.width = 12 ∧ (o.GetContent i).width = 12 := by
  refine ⟨?_, ?_, ?_, rfl, ?_⟩
  · simp [addHeader_rows, Row.width]
  · simp [addInvoiceDetails_rows, Row.width]
  · simp [addFooter_rows, Row.width]
  · simp [Row.width, GetContent_cols]

/-- C3, as amended: for every clock reading whose day is one of 1 to 31 and
whose year is one of 0 to 9999, `addInvoiceDetails` appends one row of two
width-6 text columns, the first left-aligned with the text `Date: ` followed
by the date as `DD Mon YYYY` (two-digit zero-padded day, three-letter month
abbreviation, four-digit year), the second right-aligned with the text
`Invoice #1001`, and after it one divider row holding a single width-12 line
column. -/
theorem addInvoiceDetails_date_and_number (now : Time) (m : Maroto)
    (hd : now.dayInMonth) (hy : now.yearInFourDigits) :
    (addInvoiceDetails now m).rows = m.rows ++
      [⟨10, [⟨6, Component.text ("Date: " ++ ddMonYYYY now.day now.month now.year.toNat)
                [⟨0, fontstyle.Default, align.Left, 10⟩]⟩,
             ⟨6, Component.text "Invoice #1001" [⟨0, fontstyle.Default, align.Right, 10⟩]⟩],
         none⟩,
       ⟨10, [⟨12, Component.line []⟩], none⟩] ∧
    isDDMonYYYY (ddMonYYYY now.day now.month now.year.toNat) = true := by
  rw [addInvoiceDetails_rows, Format_eq_ddMonYYYY now hd hy]
  exact ⟨rfl, ddMonYYYY_shape _ _ _⟩

/-- Witness of C3 at the clock reading 5 March 2024, 10:30: the row reads
`Date: 05 Mar 2024` and `Invoice #1001`. -/
theorem addInvoiceDetails_date_and_number_witness :
    (addInvoiceDetails ⟨2024, Month.March, 5, 10, 30, 0, 0⟩ emptyDocument).rows =
      [⟨10, [⟨6, Component.text "Date: 05 Mar 2024" [⟨0, fontstyle.Default, align.Left, 10⟩]⟩,
             ⟨6, Component.text "Invoice #1001" [⟨0, fontstyle.Default, align.Right, 10⟩]⟩],
         none⟩,
       ⟨10, [⟨12, Component.line []⟩], none⟩] :=
  (addInvoiceDetails_date_and_number ⟨2024, Month.March, 5, 10, 30, 0, 0⟩ emptyDocument
    (by decide) (by decide)).1.trans (by decide)

/-- C3 as stated fails at the clock reading 1 January 10000: the left column
reads `Date: 01 Jan 10000`, whose year has five digits, so the date is not of
the shape `DD Mon YYYY`. -/
theorem addInvoiceDetails_year_10000 :
    Time.dayInMonth ⟨10000, Month.January, 1, 0, 0, 0, 0⟩ ∧
    (addInvoiceDetails ⟨10000, Month.January, 1, 0, 0, 0, 0⟩ emptyDocument).rows =
      [⟨10, [⟨6, Component.text "Date: 01 Jan 10000" [⟨0, fontstyle.Default, align.Left, 10⟩]⟩,
             ⟨6, Component.text "Invoice #1001" [⟨0, fontstyle.Default, align.Right, 10⟩]⟩],
         none⟩,
       ⟨10, [⟨12, Component.line []⟩], none⟩] ∧
    isDDMonYYYY "01 Jan 10000" = false ∧
    ¬ (∀ (now : Time) (m : Maroto), now.dayInMonth →
        ∃ date : String, isDDMonYYYY date = true ∧
          (addInvoiceDetails now m).rows = m.rows ++
            [⟨10, [⟨6, Component.text ("Date: " ++ date)
                      [⟨0, fontstyle.Default, align.Left, 10⟩]⟩,
                   ⟨6, Component.text "Invoice #1001"
                      [⟨0, fontstyle.Default, align.Right, 10⟩]⟩],
               none⟩,
             ⟨10, [⟨12, Component.line []⟩], none⟩]) := by
  refine ⟨by decide, by decide, by decide, ?_⟩
  intro hall
  obtain ⟨date, hshape, hrows⟩ :=
    hall ⟨10000, Month.January, 1, 0, 0, 0, 0⟩ emptyDocument (by decide)
  rw [addInvoiceDetails_rows] at hrows
  have hdate : date = "01 Jan 10000" := by
    have h1 := List.append_cancel_left hrows
    simp only [List.cons.injEq, Row.mk.injEq, Col.mk.injEq, Component.text.injEq] at h1
    have h2 := h1.1.2.1.1.2.1
    have h3 : (Time.mk 10000 Month.January 1 0 0 0 0).Format "02 Jan 2006" = "01 Jan 10000" := by
      decide
    rw [h3] at h2
    have h4 : ("Date: " ++ "01 Jan 10000" : String).data = ("Date: " ++ date).data := by rw [h2]
    rw [String.data_append, String.data_append] at h4
    exact (String.ext (List.append_cancel_left h4)).symm
  rw [hdate] at hshape
  exact absurd hshape (by decide)

/-- C2: with the library's list-to-rows mapping, and whatever the clock and
the results of `Generate` and `Save`, the first thing `main` does with the
collaborator is to call `Generate` on the document obtained from the empty
one by `addHeader`, `addInvoiceDetails`, `addItemList` and `addFooter` in that
order; its row sequence is the 3 rows of `addHeader`, then the 2 of
`addInvoiceDetails`, then the 4 of `addItemList`, then the 2 of `addFooter`,
11 rows in all. -/
theorem main_runs_four_steps_in_order {Document : Type}
    (Generate : Maroto → Except String Document)
    (Save : Document → String → Except String Unit) (now : Time) :
    ∃ m m3 rest hdr det itm ftr d3,
      (main ⟨list.Build, Generate, Save⟩ now).events = Event.Generate m :: rest ∧
      addItemList list.Build (addInvoiceDetails now (addHeader emptyDocument)) = Except.ok m3 ∧
      m = addFooter m3 ∧
      (addHeader emptyDocument).rows = hdr ∧ hdr.length = 3 ∧
      (addInvoiceDetails now emptyDocument).rows = det ∧ det.length = 2 ∧
      addItemList list.Build emptyDocument = Except.ok d3 ∧ d3.rows = itm ∧ itm.length = 4 ∧
      (addFooter emptyDocument).rows = ftr ∧ ftr.length = 2 ∧
      m.rows = hdr ++ det ++ itm ++ ftr ∧ m.rows.length = 11 := by
  have hev : ∃ rest, (main ⟨list.Build, Generate, Save⟩ now).events =
      Event.Generate (addFooter ((addInvoiceDetails now (addHeader emptyDocument)).AddRows
        [InvoiceItem.GetHeader ⟨"Laptop", "14-inch, 16GB RAM", "1", "$1200", "$1000", "$1000"⟩,
         InvoiceItem.GetContent ⟨"Laptop", "14-inch, 16GB RAM", "1", "$1200", "$1000", "$1000"⟩ 0,
         InvoiceItem.GetContent ⟨"Mouse", "Wireless optical mouse", "2", "$25", "$20", "$40"⟩ 1,
         InvoiceItem.GetContent ⟨"Keyboard", "Mechanical, RGB", "1", "$75", "$60", "$60"⟩ 2]))
        :: rest := by
    rw [main_eq]
    simp only [Build_getObjects]
    split
    · exact ⟨_, rfl⟩
    · split
      · exact ⟨_, rfl⟩
      · exact ⟨_, rfl⟩
  obtain ⟨rest, hrest⟩ := hev
  refine ⟨_, _, rest, _, _, _, _, _, hrest, addItemList_rows _, rfl, rfl, ?_, rfl, ?_,
    addItemList_rows _, rfl, ?_, rfl, ?_, ?_, ?_⟩
  · simp [addHeader_rows, emptyDocument_rows]
  · simp [addInvoiceDetails_rows, emptyDocument_rows]
  · simp [emptyDocument_rows]
  · simp [addFooter_rows, emptyDocument_rows]
  · simp [addFooter_rows, addInvoiceDetails_rows, addHeader_rows, Maroto.AddRows,
      emptyDocument_rows]
  · simp [addFooter_rows, addInvoiceDetails_rows, addHeader_rows, Maroto.AddRows,
      emptyDocument_rows]

/-- C5: the run ends with status 0, after logging `PDF saved successfully.`,
exactly when row building, `Generate` and `Save` all succeed.  When row
building fails the run is the fatal error with its message and nothing else
(no `Generate`, no `Save`); when `Generate` fails the run is the call of
`Generate` and the fatal error with its message (no `Save`, so no file is
written); when `Save` fails the run is the two calls and the fatal error with
its message.  Every fatal end has status 1. -/
theorem main_fails_at_first_error {Document : Type} (lib : Library Document) (now : Time) :
    ((main lib now).status = 0 ↔
      ∃ rows document, lib.Build getObjects = Except.ok rows ∧
        lib.Generate (addFooter ((addInvoiceDetails now (addHeader emptyDocument)).AddRows rows))
          = Except.ok document ∧
        lib.Save document "output/invoice_sample.pdf" = Except.ok ()) ∧
    ((main lib now).status = 0 ↔
      ∃ m document, (main lib now).events =
        [Event.Generate m, Event.Save document "output/invoice_sample.pdf",
         Event.Println "PDF saved successfully."]) ∧
    (∀ err, lib.Build getObjects = Except.error err →
      main lib now = ⟨[Event.Fatal err], 1⟩) ∧
    (∀ rows err, lib.Build getObjects = Except.ok rows →
      lib.Generate (addFooter ((addInvoiceDetails now (addHeader emptyDocument)).AddRows rows))
        = Except.error err →
      main lib now =
        ⟨[Event.Generate
            (addFooter ((addInvoiceDetails now (addHeader emptyDocument)).AddRows rows)),
          Event.Fatal err], 1⟩) ∧
    (∀ rows document err, lib.Build getObjects = Except.ok rows →
      lib.Generate (addFooter ((addInvoiceDetails now (addHeader emptyDocument)).AddRows rows))
        = Except.ok document →
      lib.Save document "output/invoice_sample.pdf" = Except.error err →
      main lib now =
        ⟨[Event.Generate
            (addFooter ((addInvoiceDetails now (addHeader emptyDocument)).AddRows rows)),
          Event.Save document "output/invoice_sample.pdf", Event.Fatal err], 1⟩) := by
  refine ⟨?_, ?_, ?_, ?_, ?_⟩
  · cases hb : lib.Build getObjects with
    | error err => simp [main_eq, hb]
    | ok rows =>
      cases hg : lib.Generate
          (addFooter ((addInvoiceDetails now (addHeader emptyDocument)).AddRows rows)) with
      | error err => simp [main_eq, hb, hg]
      | ok document =>
        cases hs : lib.Save document "output/invoice_sample.pdf" with
        | error err => simp [main_eq, hb, hg, hs]
        | ok u => simp [main_eq, hb, hg, hs]
  · cases hb : lib.Build getObjects with
    | error err => simp [main_eq, hb]
    | ok rows =>
      cases hg : lib.Generate
          (addFooter ((addInvoiceDetails now (addHeader emptyDocument)).AddRows rows)) with
      | error err => simp [main_eq, hb, hg]
      | ok document =>
        cases hs : lib.Save document "output/invoice_sample.pdf" with
        | error err => simp [main_eq, hb, hg, hs]
        | ok u => simp [main_eq, hb, hg, hs]
  · intro err hb
    rw [main_eq, hb]
  · intro rows err hb hg
    rw [main_eq, hb]
    simp only [hg]
  · intro rows document err hb hg hs
    rw [main_eq, hb]
    simp only [hg, hs]

/-- Witness of C5 with a library whose `Generate` fails because the logo
file is missing: the run calls `Generate`, ends fatally with that message and
status 1, and never calls `Save`. -/
theorem main_fails_at_first_error_witness :
    main
        (⟨list.Build, fun _ => Except.error "open assets/logo.png: no such file or directory",
          fun _ _ => Except.ok ()⟩ : Library Unit)
        ⟨2024, Month.March, 5, 10, 30, 0, 0⟩ =
      ⟨[Event.Generate
          (addFooter ((addInvoiceDetails ⟨2024, Month.March, 5, 10, 30, 0, 0⟩
            (addHeader emptyDocument)).AddRows
              [InvoiceItem.GetHeader
                 ⟨"Laptop", "14-inch, 16GB RAM", "1", "$1200", "$1000", "$1000"⟩,
               InvoiceItem.GetContent
                 ⟨"Laptop", "14-inch, 16GB RAM", "1", "$1200", "$1000", "$1000"⟩ 0,
               InvoiceItem.GetContent
                 ⟨"Mouse", "Wireless optical mouse", "2", "$25", "$20", "$40"⟩ 1,
               InvoiceItem.GetContent
                 ⟨"Keyboard", "Mechanical, RGB", "1", "$75", "$60", "$60"⟩ 2])),
        Event.Fatal "open assets/logo.png: no such file or directory"], 1⟩ :=
  (main_fails_at_first_error
    (⟨list.Build, fun _ => Except.error "open assets/logo.png: no such file or directory",
      fun _ _ => Except.ok ()⟩ : Library Unit)
    ⟨2024, Month.March, 5, 10, 30, 0, 0⟩).2.2.2.1 _ _ rfl rfl

/-- C9: two runs with the same library whose clock readings have the same
date (year, month, day), whatever the time of day, are the same run: the same
document description is handed to `Generate`, the same artifact is saved and
the same status is returned; and `addInvoiceDetails`, the only step that reads
the clock, builds the same document from the same document. -/
theorem main_depends_on_clock_date_only {Document : Type} (lib : Library Document)
    (t1 t2 : Time) (m : Maroto)
    (hy : t1.year = t2.year) (hm : t1.month = t2.month) (hd : t1.day = t2.day) :
    main lib t1 = main lib t2 ∧ addInvoiceDetails t1 m = addInvoiceDetails t2 m := by
  have hf : t1.Format "02 Jan 2006" = t2.Format "02 Jan 2006" := by
    rw [Format_layout, Format_layout, hy, hm, hd]
  have ha : ∀ d : Maroto, addInvoiceDetails t1 d = addInvoiceDetails t2 d := by
    intro d
    unfold addInvoiceDetails
    rw [hf]
  exact ⟨by rw [main_eq, main_eq, ha], ha m⟩

/-- Witness of C9 at two readings of 5 March 2024, at 10:30 and at
23:59:59, with a library that always succeeds. -/
theorem main_depends_on_clock_date_only_witness :
    main (⟨list.Build, fun d => Except.ok d.rows, fun _ _ => Except.ok ()⟩ : Library (List Row))
        ⟨2024, Month.March, 5, 10, 30, 0, 0⟩ =
      main (⟨list.Build, fun d => Except.ok d.rows, fun _ _ => Except.ok ()⟩ : Library (List Row))
        ⟨2024, Month.March, 5, 23, 59, 59, 999⟩ :=
  (main_depends_on_clock_date_only
    (⟨list.Build, fun d => Except.ok d.rows, fun _ _ => Except.ok ()⟩ : Library (List Row))
    ⟨2024, Month.March, 5, 10, 30, 0, 0⟩ ⟨2024, Month.March, 5, 23, 59, 59, 999⟩ emptyDocument
    rfl rfl rfl).1

/-- C10: reading each dollar string as the integer after the `$`, every item
of `getObjects` has Total = Quantity × DiscountedPrice (1 × 1000 = 1000,
2 × 20 = 40, 1 × 60 = 60), and the three totals sum to 1100, the amount the
totals row of `addFooter` displays as `$1100`. -/
theorem sample_totals_match_footer (m : Maroto) :
    (∀ o ∈ getObjects, ∃ q p t, parseDecimal o.Quantity.data = some q ∧
      dollars o.DiscountedPrice = some p ∧ dollars o.Total = some t ∧ t = q * p) ∧
    getObjects.map (fun o => (parseDecimal o.Quantity.data, dollars o.DiscountedPrice,
        dollars o.Total)) =
      [(some 1, some 1000, some 1000), (some 2, some 20, some 40), (some 1, some 60, some 60)] ∧
    (getObjects.filterMap (fun o => dollars o.Total)).sum = 1100 ∧
    (∃ totals amount text, (addFooter m).rows[m.rows.length]? = some totals ∧
      totals.cols[1]? = some amount ∧ amount.text? = some text ∧ text = "$1100" ∧
      dollars text = some (getObjects.filterMap (fun o => dollars o.Total)).sum) := by
  refine ⟨?_, by decide, by decide, ?_⟩
  · rw [getObjects_eq]
    intro o ho
    simp only [List.mem_cons, List.mem_singleton, List.not_mem_nil, or_false] at ho
    rcases ho with rfl | rfl | rfl
    · exact ⟨1, 1000, 1000, by decide, by decide, by decide, by decide⟩
    · exact ⟨2, 20, 40, by decide, by decide, by decide, by decide⟩
    · exact ⟨1, 60, 60, by decide, by decide, by decide, by decide⟩
  · refine ⟨⟨15, [⟨8, Component.text "Total Amount" [⟨5, fontstyle.Bold, align.Right, 10⟩]⟩,
      ⟨4, Component.text "$1100" [⟨5, fontstyle.Bold, align.Center, 10⟩]⟩], none⟩,
      ⟨4, Component.text "$1100" [⟨5, fontstyle.Bold, align.Center, 10⟩]⟩, "$1100",
      ?_, rfl, rfl, rfl, by decide⟩
    rw [addFooter_rows, List.getElem?_append_right (Nat.le_refl _), Nat.sub_self]
    rfl

end Invoice
